import Mathlib

/-
Shallow embedding of the poll/vote core of the `votes` repository
(`src/core/models.py`, `src/core/forms.py`, `src/core/views.py`).

Modelling conventions:
* nullable datetime columns (`time_start`, `time_end`) become `Option Nat`
  (the `Nat` is an abstract timestamp; a Python `datetime` is always truthy,
  `None` is falsy, so `not self.time_start` is exactly `time_start = none`);
* a Django `ValidationError` raised inside a clean method becomes an
  `Except` error value; the error enumerators carry the names used by the
  specification for the corresponding Django error codes
  (e.g. `TooFewSelections` for code `min_choices`);
* database rows become entries of explicit lists; a view wrapped in
  `transaction.atomic` becomes a function that either returns the updated
  store or returns an error together with the untouched store.
-/

namespace Votes

/-- Python `str.strip()` modelled structurally on the string's character
list: drop whitespace from both ends.  (Core's `String.trim` is
extensionally the same but its byte-position loops do not reduce in the
kernel, so concrete witnesses could not be evaluated through it.) -/
def pyStrip (s : String) : String :=
  ⟨((s.data.dropWhile Char.isWhitespace).reverse.dropWhile Char.isWhitespace).reverse⟩

/-- Python `str.lower()`, ASCII case folding, modelled structurally. -/
def pyLower (s : String) : String :=
  ⟨s.data.map Char.toLower⟩

/-- Derived poll status (`Poll.status`, models.py). -/
inductive Status
  | WAITING
  | PENDING
  | FINISHED
deriving DecidableEq, Repr

/-- The two nullable timestamp columns of `Poll` (models.py).  `status` is a
property computed from them; the model stores no separate status column, so
the embedding carries no status field either. -/
structure Poll where
  time_start : Option Nat
  time_end : Option Nat
deriving DecidableEq, Repr

/-- Embeds `Poll.status` (models.py lines 64-72):
`if not self.time_start: WAITING; elif not self.time_end: PENDING; else FINISHED`. -/
def Poll.status (p : Poll) : Status :=
  if p.time_start = none then Status.WAITING
  else if p.time_end = none then Status.PENDING
  else Status.FINISHED

/-- Error answered by `EndPollView.post` (views.py line 478-479) when
`time_end` is already set. -/
inductive EndErr
  | AlreadyEnded
deriving DecidableEq, Repr

/-- Embeds `EndPollView.post` (views.py lines 469-489): reject when `time_end is not
None`, otherwise set `time_end := timezone.now()` and save.  The view performs
no check on `time_start`. -/
def endPoll (p : Poll) (now : Nat) : Except EndErr Poll :=
  if p.time_end ≠ none then Except.error EndErr.AlreadyEnded
  else Except.ok { p with time_end := some now }

/-! ## Vote submission (`VoteView`, `VoteForm`) -/

/-- Errors surfaced by the vote-submission path.  Correspondence to the code:
`AlreadyVoted` = dispatch/form_valid message "Вы уже проголосовали";
`PollNotActive` = "Опрос не активен для голосования";
`MissingRequiredAnswer` = required-field failure on a single-choice question
or the `all_required_answered` re-check in `form_valid`;
`TooFewSelections` = form code `min_choices` (and the required-field failure
of a multi field, whose `required` flag is `min > 0`);
`TooManySelections` = form code `max_choices`;
`InvalidChoice` = a submitted id outside the question's choice set
(Django's `invalid_choice`). -/
inductive VErr
  | AlreadyVoted
  | PollNotActive
  | MissingRequiredAnswer
  | TooFewSelections
  | TooManySelections
  | InvalidChoice
deriving DecidableEq, Repr

/-- One row of the `Question` table as the vote path reads it: its id, its
`type` string ("question" = single choice, "multiple" = multi choice), the
`min`/`max` columns and the ids of its `Choice` rows. -/
structure QuestionRow where
  id : Nat
  type : String
  min : Nat
  max : Nat
  choices : List Nat
deriving DecidableEq, Repr

/-- What `form.cleaned_data.get(field_name)` yields for one question:
absent (`None`), a single choice id (ChoiceField) or a list of choice ids
(MultipleChoiceField). -/
inductive CleanedVal
  | missing
  | single (c : Nat)
  | multi (cs : List Nat)
deriving DecidableEq, Repr

/-- Embeds `len(value) if value else 0` (forms.py line 210): `None` and the empty
list count as 0. -/
def selectedCount : CleanedVal → Nat
  | CleanedVal.missing => 0
  | CleanedVal.single _ => 1
  | CleanedVal.multi cs => cs.length

/-- The per-question body of `VoteForm.clean` (forms.py lines 207-221) for a
`multiple` question: `min > 0 and count < min` raises `min_choices`,
`count > max` raises `max_choices`. -/
def checkMulti (q : QuestionRow) (v : CleanedVal) : Except VErr Unit :=
  if q.min > 0 ∧ selectedCount v < q.min then Except.error VErr.TooFewSelections
  else if selectedCount v > q.max then Except.error VErr.TooManySelections
  else Except.ok ()

/-- Embeds `VoteForm.clean` (forms.py lines 200-223): walk the questions in order,
count-check each `multiple` one, first raise aborts. -/
def voteFormClean (qs : List QuestionRow) (b : Nat → CleanedVal) : Except VErr Unit :=
  match qs with
  | [] => Except.ok ()
  | q :: rest =>
    if q.type = "multiple" then
      match checkMulti q (b q.id) with
      | Except.error e => Except.error e
      | Except.ok _ => voteFormClean rest b
    else voteFormClean rest b

/-- Field-level cleaning from `VoteForm.__init__` (forms.py lines 175-198):
a single question is a required `ChoiceField` (value must be present and one
of the question's choices); a multi question is a `MultipleChoiceField` with
`required = (min > 0)` whose values must all be among the question's choices. -/
def fieldClean (q : QuestionRow) (v : CleanedVal) : Except VErr Unit :=
  if q.type = "question" then
    match v with
    | CleanedVal.single c =>
      if c ∈ q.choices then Except.ok () else Except.error VErr.InvalidChoice
    | _ => Except.error VErr.MissingRequiredAnswer
  else
    match v with
    | CleanedVal.multi cs =>
      if ¬ cs.all (fun c => c ∈ q.choices) then Except.error VErr.InvalidChoice
      else if cs = [] ∧ q.min > 0 then Except.error VErr.TooFewSelections
      else Except.ok ()
    | CleanedVal.missing =>
      if q.min > 0 then Except.error VErr.TooFewSelections else Except.ok ()
    | CleanedVal.single _ => Except.error VErr.InvalidChoice

/-- Field cleaning over all questions, in order. -/
def fieldsClean (qs : List QuestionRow) (b : Nat → CleanedVal) : Except VErr Unit :=
  match qs with
  | [] => Except.ok ()
  | q :: rest =>
    match fieldClean q (b q.id) with
    | Except.error e => Except.error e
    | Except.ok _ => fieldsClean rest b

/-- One `UserChoice` row (models.py): the participant and the chosen choice. -/
structure VoteRow where
  user : Nat
  choice : Nat
deriving DecidableEq, Repr

/-- The rows `VoteView.form_valid` builds for one question (views.py lines
577-599): one row for a present single answer, one row per selected id of a
multi answer, none otherwise. -/
def rowsForQuestion (uid : Nat) (q : QuestionRow) (v : CleanedVal) : List VoteRow :=
  if q.type = "question" then
    match v with
    | CleanedVal.single c => [⟨uid, c⟩]
    | _ => []
  else
    match v with
    | CleanedVal.multi cs => cs.map (fun c => ⟨uid, c⟩)
    | _ => []

/-- All `UserChoice` rows of one ballot, question by question. -/
def ballotRows (uid : Nat) (qs : List QuestionRow) (b : Nat → CleanedVal) : List VoteRow :=
  match qs with
  | [] => []
  | q :: rest => rowsForQuestion uid q (b q.id) ++ ballotRows uid rest b

/-- The `all_required_answered` re-check of `form_valid` (views.py lines
601-618): singles always need an answer, multis only when `min > 0`. -/
def requiredAnswered (qs : List QuestionRow) (b : Nat → CleanedVal) : Bool :=
  match qs with
  | [] => true
  | q :: rest =>
    if q.type = "question" then
      match b q.id with
      | CleanedVal.single _ => requiredAnswered rest b
      | _ => false
    else
      if q.min > 0 ∧ selectedCount (b q.id) = 0 then false
      else requiredAnswered rest b

/-- The participant-visible state a vote submission touches: the `is_voted`
flag of the `PollUser` row and that participant's `UserChoice` rows. -/
structure PState where
  is_voted : Bool
  votes : List VoteRow
deriving DecidableEq, Repr

/-- The whole POST path of `VoteView` (views.py lines 545-632) for one
participant `uid`: `dispatch` rejects an already-voted participant, then a
non-PENDING poll; then the form is validated (field cleaning, then
`VoteForm.clean`); `form_valid` re-checks status and `is_voted` (identical
values in this sequential model), re-checks required answers, and inside one
atomic transaction inserts the ballot's rows and flips `is_voted`.
An error return means the transaction never ran: the store is untouched. -/
def submitVote (poll : Poll) (qs : List QuestionRow) (st : PState) (uid : Nat)
    (b : Nat → CleanedVal) : Except VErr PState :=
  if st.is_voted then Except.error VErr.AlreadyVoted
  else if poll.status ≠ Status.PENDING then Except.error VErr.PollNotActive
  else
    match fieldsClean qs b with
    | Except.error e => Except.error e
    | Except.ok _ =>
      match voteFormClean qs b with
      | Except.error e => Except.error e
      | Except.ok _ =>
        if requiredAnswered qs b then
          Except.ok ⟨true, st.votes ++ ballotRows uid qs b⟩
        else Except.error VErr.MissingRequiredAnswer

/-! ## Poll creation (`PollCreationForm`, `CreatePollView.form_valid`) -/

/-- Errors raised by `PollCreationForm.clean_questions_data` (forms.py lines
35-103), under the names the specification gives the Django codes:
`EmptyList` = code `empty`, `EmptyQuestionText` = `empty_question`,
`InsufficientChoices` = `not_enough_choices`, `InvalidKind` = `invalid_type`,
`InvalidRange` = `invalid_range`, `MaxExceedsChoices` = `invalid_max`.
(The JSON-decode failure `invalid_json` and the `int()` parse failure
`invalid_min_max` live below the typed payload this embedding starts from.) -/
inductive CErr
  | EmptyList
  | EmptyQuestionText
  | InsufficientChoices
  | InvalidKind
  | InvalidRange
  | MaxExceedsChoices
deriving DecidableEq, Repr

/-- One decoded entry of the `questions_data` JSON list: question text, the
`type` string, raw choice texts and the submitted min/max (already numbers;
the `int()` parse step is below this embedding). -/
structure QSpec where
  question : String
  type : String
  choices : List String
  min : Int
  max : Int
deriving DecidableEq, Repr

/-- A normalized question as `clean_questions_data` appends it and
`CreatePollView.form_valid` (views.py lines 163-176) persists it verbatim. -/
structure NormQuestion where
  text : String
  type : String
  min : Nat
  max : Nat
  choices : List String
deriving DecidableEq, Repr

/-- Embeds `[c.strip() for c in choices_raw if str(c).strip()]` (forms.py line 56):
trim every choice text and discard the ones that become empty. -/
def surviveChoices (raw : List String) : List String :=
  (raw.map pyStrip).filter (fun c => c ≠ "")

/-- The per-question body of `clean_questions_data` (forms.py lines 46-101):
empty text, then fewer than 2 surviving choices, then unknown type; a
"question" (single) entry gets min = max = 1 regardless of input; a
"multiple" entry must satisfy min ≥ 0, max ≥ 1, min ≤ max and
max ≤ number of surviving choices. -/
def cleanQuestion (q : QSpec) : Except CErr NormQuestion :=
  let text := pyStrip q.question
  let choices := surviveChoices q.choices
  if text = "" then Except.error CErr.EmptyQuestionText
  else if choices.length < 2 then Except.error CErr.InsufficientChoices
  else if q.type ≠ "question" ∧ q.type ≠ "multiple" then Except.error CErr.InvalidKind
  else if q.type = "question" then Except.ok ⟨text, q.type, 1, 1, choices⟩
  else if q.min < 0 ∨ q.max < 1 ∨ q.min > q.max then Except.error CErr.InvalidRange
  else if q.max > (choices.length : Int) then Except.error CErr.MaxExceedsChoices
  else Except.ok ⟨text, q.type, q.min.toNat, q.max.toNat, choices⟩

/-- The loop of `clean_questions_data`: questions validated in submission
order, the first raise aborts the whole list. -/
def cleanQuestionList : List QSpec → Except CErr (List NormQuestion)
  | [] => Except.ok []
  | q :: rest =>
    match cleanQuestion q with
    | Except.error e => Except.error e
    | Except.ok nq =>
      match cleanQuestionList rest with
      | Except.error e => Except.error e
      | Except.ok nrest => Except.ok (nq :: nrest)

/-- Embeds `clean_questions_data` (forms.py lines 35-103): an empty list is rejected
(`empty`), otherwise each question is validated in order. -/
def cleanQuestionsData (qs : List QSpec) : Except CErr (List NormQuestion) :=
  if qs = [] then Except.error CErr.EmptyList
  else cleanQuestionList qs

/-- Error raised by `clean_participants_data` (forms.py line 123), code
`email_required`.  (`invalid_json` / `invalid_format` live below the typed
payload.) -/
inductive PErr
  | EmailRequired
deriving DecidableEq, Repr

/-- One decoded entry of the `participants_data` JSON list. -/
structure PEntry where
  email : String
  name : String
deriving DecidableEq, Repr

/-- A normalized participant as the form returns it and `form_valid`
persists it (the view dedups by email a second time, a no-op after the
form's own dedup). -/
structure NormParticipant where
  email : String
  name : String
deriving DecidableEq, Repr

/-- The loop of `clean_participants_data` (forms.py lines 115-130) with the
`seen_emails` set made explicit: trim/lower the email, trim the name; skip an
entry with both empty; raise `email_required` when only the email is empty;
skip a duplicate email; otherwise record it, defaulting an empty name. -/
def cleanParticipantList (seen : List String) : List PEntry → Except PErr (List NormParticipant)
  | [] => Except.ok []
  | p :: rest =>
    if pyLower (pyStrip p.email) = "" ∧ pyStrip p.name = "" then
      cleanParticipantList seen rest
    else if pyLower (pyStrip p.email) = "" then Except.error PErr.EmailRequired
    else if pyLower (pyStrip p.email) ∈ seen then cleanParticipantList seen rest
    else
      match cleanParticipantList (pyLower (pyStrip p.email) :: seen) rest with
      | Except.error e => Except.error e
      | Except.ok nrest =>
        Except.ok (⟨pyLower (pyStrip p.email),
          if pyStrip p.name = "" then "Участник" else pyStrip p.name⟩ :: nrest)

/-- Embeds `clean_participants_data` (forms.py lines 105-130). -/
def cleanParticipantsData (ps : List PEntry) : Except PErr (List NormParticipant) :=
  cleanParticipantList [] ps

/-- The rows `CreatePollView.form_valid` writes: poll titles, question rows,
choice rows (tagged with their question's text) and participant rows. -/
structure Store where
  polls : List String
  questions : List NormQuestion
  choices : List (String × String)
  participants : List NormParticipant
deriving DecidableEq, Repr

/-- A poll-creation failure: one of the two field-level cleans raised. -/
inductive CreateErr
  | questionsInvalid (e : CErr)
  | participantsInvalid (e : PErr)
deriving DecidableEq, Repr

/-- The writes inside the `transaction.atomic()` block of `form_valid`
(views.py lines 156-195): the poll, each normalized question with its
choices, and the participant rows. -/
def persistPoll (st : Store) (title : String) (nqs : List NormQuestion)
    (nps : List NormParticipant) : Store :=
  { polls := st.polls ++ [title]
    questions := st.questions ++ nqs
    choices := st.choices ++ (nqs.map (fun nq => nq.choices.map (fun c => (nq.text, c)))).flatten
    participants := st.participants ++ nps }

/-- The whole creation request: Django runs the form's clean methods first
and only calls `form_valid` (the atomic write) when both succeed, so a
validation failure returns the store unchanged. -/
def createPoll (st : Store) (title : String) (qs : List QSpec) (ps : List PEntry) :
    Store × Option CreateErr :=
  match cleanQuestionsData qs with
  | Except.error e => (st, some (CreateErr.questionsInvalid e))
  | Except.ok nqs =>
    match cleanParticipantsData ps with
    | Except.error e => (st, some (CreateErr.participantsInvalid e))
    | Except.ok nps => (persistPoll st title nqs nps, none)

/-! ## Results aggregation (`calculate_poll_results`) -/

/-- Embeds `UserChoice.objects.filter(choice=choice).count()` (views.py line 38):
the number of vote rows referencing choice `c`. -/
def voteCount (votes : List VoteRow) (c : Nat) : Nat :=
  (votes.filter (fun v => v.choice = c)).length

/-- Embeds `calculate_poll_results` (views.py lines 26-47): `None` ("Unavailable")
when `poll.time_end` is unset, otherwise for every question the list of its
choices with their vote counts.  Note the guard reads `time_end`, not the
derived status. -/
def calculatePollResults (p : Poll) (qs : List QuestionRow) (votes : List VoteRow) :
    Option (List (Nat × List (Nat × Nat))) :=
  if p.time_end = none then none
  else some (qs.map (fun q => (q.id, q.choices.map (fun c => (c, voteCount votes c)))))

/-! ## Theorems -/

/-- C2: for every poll, the derived status is WAITING iff `time_start` is
unset, PENDING iff `time_start` is set and `time_end` unset, and FINISHED iff
both are set.  The `Poll` record carries only the two timestamps — the model
stores no status column that could diverge from this derivation. -/
theorem status_is_derived (p : Poll) :
    (p.status = Status.WAITING ↔ p.time_start = none) ∧
    (p.status = Status.PENDING ↔ p.time_start ≠ none ∧ p.time_end = none) ∧
    (p.status = Status.FINISHED ↔ p.time_start ≠ none ∧ p.time_end ≠ none) := by
  rcases p with ⟨ts, te⟩
  cases ts <;> cases te <;> simp [Poll.status]

/-- C1 counterexample: ending the WAITING poll (no `time_start`, no
`time_end`) does not fail with NotStarted — `EndPollView.post` checks only
`time_end` and happily sets `time_end` on a poll that was never started. -/
theorem end_waiting_poll_succeeds :
    Poll.status ⟨none, none⟩ = Status.WAITING ∧
    endPoll ⟨none, none⟩ 5 = Except.ok ⟨none, some 5⟩ := by
  constructor
  · rfl
  · rfl

/-- C1 amended: `endPoll` fails with AlreadyEnded when `time_end` is already
set, and otherwise succeeds and sets `time_end` to the current time — even
when `time_start` is unset; the code has no NotStarted guard. -/
theorem endPoll_characterization (p : Poll) (t : Nat) :
    (p.time_end ≠ none → endPoll p t = Except.error EndErr.AlreadyEnded) ∧
    (p.time_end = none → endPoll p t = Except.ok { p with time_end := some t }) := by
  constructor <;> intro h <;> simp [endPoll, h]

/-- Witness for `endPoll_characterization` at concrete polls. -/
theorem endPoll_characterization_witness :
    endPoll ⟨some 1, some 2⟩ 3 = Except.error EndErr.AlreadyEnded ∧
    endPoll ⟨some 1, none⟩ 3 = Except.ok ⟨some 1, some 3⟩ := by
  refine ⟨(endPoll_characterization ⟨some 1, some 2⟩ 3).1 (by simp),
          (endPoll_characterization ⟨some 1, none⟩ 3).2 rfl⟩

/-- C3: a first submission that passes all checks succeeds, flips the
participant's `is_voted` flag, and records exactly the ballot's rows (one per
selected choice); every later submission by the same participant — whatever
its ballot — fails with AlreadyVoted and is not a silent no-op. -/
theorem vote_first_succeeds_second_already_voted (poll : Poll) (qs : List QuestionRow)
    (st : PState) (uid : Nat) (b : Nat → CleanedVal) (st' : PState)
    (h0 : st.is_voted = false) (h1 : st.votes = [])
    (h2 : submitVote poll qs st uid b = Except.ok st') :
    st'.is_voted = true ∧ st'.votes = ballotRows uid qs b ∧
    ∀ b2 : Nat → CleanedVal, submitVote poll qs st' uid b2 = Except.error VErr.AlreadyVoted := by
  unfold submitVote at h2
  rw [h0] at h2
  simp only [Bool.false_eq_true, if_false] at h2
  split at h2
  · cases h2
  · split at h2
    · cases h2
    · split at h2
      · cases h2
      · split at h2
        · cases h2
          refine ⟨rfl, by rw [h1, List.nil_append], ?_⟩
          intro b2
          unfold submitVote
          rfl
        · cases h2

/-- Witness for `vote_first_succeeds_second_already_voted`: a PENDING poll
with one single-choice question; the first submission records one row, the
repeat fails AlreadyVoted. -/
theorem vote_first_second_witness :
    submitVote ⟨some 1, none⟩ [⟨1, "question", 1, 1, [10, 11]⟩] ⟨false, []⟩ 7
        (fun _ => CleanedVal.single 10) = Except.ok ⟨true, [⟨7, 10⟩]⟩ ∧
    (⟨true, [⟨7, 10⟩]⟩ : PState).votes =
      ballotRows 7 [⟨1, "question", 1, 1, [10, 11]⟩] (fun _ => CleanedVal.single 10) ∧
    submitVote ⟨some 1, none⟩ [⟨1, "question", 1, 1, [10, 11]⟩] ⟨true, [⟨7, 10⟩]⟩ 7
        (fun _ => CleanedVal.single 10) = Except.error VErr.AlreadyVoted := by
  have h := vote_first_succeeds_second_already_voted ⟨some 1, none⟩
    [⟨1, "question", 1, 1, [10, 11]⟩] ⟨false, []⟩ 7 (fun _ => CleanedVal.single 10)
    ⟨true, [⟨7, 10⟩]⟩ rfl rfl rfl
  exact ⟨rfl, h.2.1, h.2.2 (fun _ => CleanedVal.single 10)⟩

/-- C4 counterexample: on a FINISHED poll, a participant who has already
voted gets AlreadyVoted, not PollNotActive — `VoteView.dispatch` checks the
`is_voted` flag before the poll status. -/
theorem vote_finished_already_voted_error :
    Poll.status ⟨some 1, some 2⟩ ≠ Status.PENDING ∧
    submitVote ⟨some 1, some 2⟩ [] ⟨true, []⟩ 0 (fun _ => CleanedVal.missing) =
      Except.error VErr.AlreadyVoted ∧
    VErr.AlreadyVoted ≠ VErr.PollNotActive := by
  refine ⟨by simp [Poll.status], rfl, by simp⟩

/-- C4 amended: every submission on a poll whose derived status is not
PENDING fails — with PollNotActive when the participant has not yet voted,
with AlreadyVoted when they have (the `is_voted` check runs first) — and in
either case no success value is produced, so no vote rows are created and the
`is_voted` flag is untouched. -/
theorem vote_not_pending_rejected (poll : Poll) (qs : List QuestionRow) (st : PState)
    (uid : Nat) (b : Nat → CleanedVal) (h : poll.status ≠ Status.PENDING) :
    (st.is_voted = false → submitVote poll qs st uid b = Except.error VErr.PollNotActive) ∧
    (st.is_voted = true → submitVote poll qs st uid b = Except.error VErr.AlreadyVoted) ∧
    ∀ st2 : PState, submitVote poll qs st uid b ≠ Except.ok st2 := by
  refine ⟨fun hv => by simp [submitVote, hv, h], fun hv => by simp [submitVote, hv], ?_⟩
  intro st2
  cases hv : st.is_voted <;> simp [submitVote, hv, h]

/-- Witness for `vote_not_pending_rejected` on a WAITING poll and on a
FINISHED poll. -/
theorem vote_not_pending_witness :
    submitVote ⟨none, none⟩ [] ⟨false, []⟩ 0 (fun _ => CleanedVal.missing) =
      Except.error VErr.PollNotActive ∧
    submitVote ⟨some 1, some 2⟩ [] ⟨false, []⟩ 0 (fun _ => CleanedVal.missing) =
      Except.error VErr.PollNotActive := by
  refine ⟨(vote_not_pending_rejected ⟨none, none⟩ [] ⟨false, []⟩ 0
            (fun _ => CleanedVal.missing) (by simp [Poll.status])).1 rfl,
          (vote_not_pending_rejected ⟨some 1, some 2⟩ [] ⟨false, []⟩ 0
            (fun _ => CleanedVal.missing) (by simp [Poll.status])).1 rfl⟩

/-- Lemma: `VoteForm.clean` on a one-question form is exactly the per-question
count check when the question is a multi one. -/
lemma voteFormClean_singleton (q : QuestionRow) (b : Nat → CleanedVal)
    (hq : q.type = "multiple") : voteFormClean [q] b = checkMulti q (b q.id) := by
  cases h : checkMulti q (b q.id) with
  | error e => simp [voteFormClean, hq, h]
  | ok u => cases u; simp [voteFormClean, hq, h]

/-- C5: a multi-kind question accepts a selection of size `n` iff
`min ≤ n ≤ max`; `n < min` raises TooFewSelections (`min_choices`),
`n > max` raises TooManySelections (`max_choices`); with `min = 0` an empty
selection passes the check and contributes zero vote rows.  The hypothesis
`q.min ≤ q.max` is the `max_gte_min` check constraint on the `Question`
table (models.py line 106), which every persisted question satisfies. -/
theorem multi_count_bounds (q : QuestionRow) (uid : Nat) (cs : List Nat)
    (hq : q.type = "multiple") (hqm : q.min ≤ q.max) :
    (voteFormClean [q] (fun _ => CleanedVal.multi cs) = Except.ok () ↔
      q.min ≤ cs.length ∧ cs.length ≤ q.max) ∧
    (cs.length < q.min →
      voteFormClean [q] (fun _ => CleanedVal.multi cs) = Except.error VErr.TooFewSelections) ∧
    (q.max < cs.length →
      voteFormClean [q] (fun _ => CleanedVal.multi cs) = Except.error VErr.TooManySelections) ∧
    (q.min = 0 → cs = [] →
      voteFormClean [q] (fun _ => CleanedVal.multi cs) = Except.ok () ∧
      rowsForQuestion uid q (CleanedVal.multi cs) = []) := by
  rw [voteFormClean_singleton q _ hq]
  have hsel : selectedCount (CleanedVal.multi cs) = cs.length := rfl
  unfold checkMulti
  rw [hsel]
  refine ⟨?_, ?_, ?_, ?_⟩
  · constructor
    · intro hok
      by_cases h1 : q.min > 0 ∧ cs.length < q.min
      · rw [if_pos h1] at hok; cases hok
      · rw [if_neg h1] at hok
        by_cases h2 : cs.length > q.max
        · rw [if_pos h2] at hok; cases hok
        · omega
    · intro hb
      rw [if_neg (by omega), if_neg (by omega)]
  · intro hlt
    rw [if_pos (by omega)]
  · intro hgt
    rw [if_neg (by omega), if_pos (by omega)]
  · intro hmin hnil
    subst hnil
    constructor
    · rw [if_neg (by omega), if_neg (by simp)]
    · simp [rowsForQuestion]

/-- Witness for `multi_count_bounds`: a multi question with min 0, max 2 and
three choices; the empty selection is accepted and yields no rows, a
three-element selection is rejected as TooManySelections. -/
theorem multi_count_bounds_witness :
    (voteFormClean [⟨2, "multiple", 0, 2, [1, 2, 3]⟩] (fun _ => CleanedVal.multi []) =
        Except.ok () ∧
      rowsForQuestion 7 ⟨2, "multiple", 0, 2, [1, 2, 3]⟩ (CleanedVal.multi []) = []) ∧
    voteFormClean [⟨2, "multiple", 0, 2, [1, 2, 3]⟩] (fun _ => CleanedVal.multi [1, 2, 3]) =
      Except.error VErr.TooManySelections := by
  refine ⟨(multi_count_bounds ⟨2, "multiple", 0, 2, [1, 2, 3]⟩ 7 [] rfl (by simp)).2.2.2 rfl rfl,
          (multi_count_bounds ⟨2, "multiple", 0, 2, [1, 2, 3]⟩ 7 [1, 2, 3] rfl (by simp)).2.2.1
            (by simp)⟩

/-- C6: poll creation is all-or-nothing — when the question-list validation
raises, `createPoll` reports the error and returns the store exactly as it
was, persisting no poll, question, choice or participant row; and a question
whose text survives trimming but which keeps fewer than 2 non-empty choices
raises InsufficientChoices. -/
theorem creation_all_or_nothing (st : Store) (title : String) (qs : List QSpec)
    (ps : List PEntry) (e : CErr) (h : cleanQuestionsData qs = Except.error e) :
    createPoll st title qs ps = (st, some (CreateErr.questionsInvalid e)) ∧
    ∀ q : QSpec, pyStrip q.question ≠ "" → (surviveChoices q.choices).length < 2 →
      cleanQuestion q = Except.error CErr.InsufficientChoices := by
  constructor
  · simp [createPoll, h]
  · intro q h1 h2
    simp [cleanQuestion, h1, h2]

/-- Witness for `creation_all_or_nothing`: the first question is valid, the
second keeps a single surviving choice, and the whole request leaves the
empty store empty. -/
theorem creation_all_or_nothing_witness :
    cleanQuestionsData
        [⟨"A", "question", ["x", "y"], 1, 1⟩, ⟨"B", "question", ["x", ""], 1, 1⟩] =
      Except.error CErr.InsufficientChoices ∧
    createPoll ⟨[], [], [], []⟩ "t"
        [⟨"A", "question", ["x", "y"], 1, 1⟩, ⟨"B", "question", ["x", ""], 1, 1⟩]
        [⟨"a@b.c", "P"⟩] =
      (⟨[], [], [], []⟩, some (CreateErr.questionsInvalid CErr.InsufficientChoices)) ∧
    cleanQuestion ⟨"B", "question", ["x", ""], 1, 1⟩ =
      Except.error CErr.InsufficientChoices := by
  have h := creation_all_or_nothing ⟨[], [], [], []⟩ "t"
    [⟨"A", "question", ["x", "y"], 1, 1⟩, ⟨"B", "question", ["x", ""], 1, 1⟩]
    [⟨"a@b.c", "P"⟩] CErr.InsufficientChoices rfl
  exact ⟨rfl, h.1, h.2 ⟨"B", "question", ["x", ""], 1, 1⟩ (by decide) (by decide)⟩

/-- C7: a question specification of kind "question" (single) is always
normalized to min = 1 and max = 1 no matter what min/max were submitted, and
`persistPoll` stores the normalized questions verbatim. -/
theorem single_kind_minmax_one (q : QSpec) (nq : NormQuestion)
    (hk : q.type = "question") (h : cleanQuestion q = Except.ok nq) :
    (nq.min = 1 ∧ nq.max = 1) ∧
    ∀ (st : Store) (title : String) (nqs : List NormQuestion) (nps : List NormParticipant),
      (persistPoll st title nqs nps).questions = st.questions ++ nqs := by
  refine ⟨?_, fun st title nqs nps => rfl⟩
  unfold cleanQuestion at h
  simp only [hk] at h
  split at h
  · cases h
  · split at h
    · cases h
    · simp at h
      subst h
      exact ⟨rfl, rfl⟩

/-- Witness for `single_kind_minmax_one`: a single-kind question submitted
with min = -3, max = 0 still normalizes to min = max = 1. -/
theorem single_kind_minmax_one_witness :
    cleanQuestion ⟨"Color", "question", ["Red", "Blue"], -3, 0⟩ =
      Except.ok ⟨"Color", "question", 1, 1, ["Red", "Blue"]⟩ ∧
    (⟨"Color", "question", 1, 1, ["Red", "Blue"]⟩ : NormQuestion).min = 1 ∧
    (⟨"Color", "question", 1, 1, ["Red", "Blue"]⟩ : NormQuestion).max = 1 := by
  have h := single_kind_minmax_one ⟨"Color", "question", ["Red", "Blue"], -3, 0⟩
    ⟨"Color", "question", 1, 1, ["Red", "Blue"]⟩ rfl rfl
  exact ⟨rfl, h.1.1, h.1.2⟩

/-- Helper: an entry whose normalized email is empty while its trimmed name
is not makes `cleanParticipantList` raise EmailRequired, whatever the seen
set and wherever the entry sits in the list. -/
lemma cleanParticipantList_error_of_mem (l : List PEntry) (e : PEntry)
    (he : pyLower (pyStrip e.email) = "") (hn : pyStrip e.name ≠ "") :
    ∀ seen : List String, e ∈ l →
      cleanParticipantList seen l = Except.error PErr.EmailRequired := by
  induction l with
  | nil => intro seen hmem; cases hmem
  | cons p rest ih =>
    intro seen hmem
    unfold cleanParticipantList
    rcases List.mem_cons.mp hmem with heq | hmem2
    · subst heq
      rw [if_neg (fun h => hn h.2), if_pos he]
    · by_cases h1 : pyLower (pyStrip p.email) = "" ∧ pyStrip p.name = ""
      · rw [if_pos h1]
        exact ih seen hmem2
      · rw [if_neg h1]
        by_cases h2 : pyLower (pyStrip p.email) = ""
        · rw [if_pos h2]
        · rw [if_neg h2]
          by_cases h3 : pyLower (pyStrip p.email) ∈ seen
          · rw [if_pos h3]; exact ih seen hmem2
          · rw [if_neg h3, ih _ hmem2]

/-- Helper: `cleanParticipantList` errors exactly when some entry has an
empty normalized email together with a non-empty trimmed name. -/
lemma cleanParticipantList_error_iff (l : List PEntry) :
    ∀ seen : List String,
      (cleanParticipantList seen l = Except.error PErr.EmailRequired ↔
        ∃ e ∈ l, pyLower (pyStrip e.email) = "" ∧ pyStrip e.name ≠ "") := by
  induction l with
  | nil =>
    intro seen
    constructor
    · intro h; cases h
    · rintro ⟨e, hmem, -⟩; cases hmem
  | cons p rest ih =>
    intro seen
    constructor
    · intro h
      unfold cleanParticipantList at h
      by_cases h1 : pyLower (pyStrip p.email) = "" ∧ pyStrip p.name = ""
      · rw [if_pos h1] at h
        obtain ⟨e, hmem, hprop⟩ := (ih seen).mp h
        exact ⟨e, List.mem_cons_of_mem p hmem, hprop⟩
      · rw [if_neg h1] at h
        by_cases h2 : pyLower (pyStrip p.email) = ""
        · exact ⟨p, List.mem_cons_self p rest, h2, fun hname => h1 ⟨h2, hname⟩⟩
        · rw [if_neg h2] at h
          by_cases h3 : pyLower (pyStrip p.email) ∈ seen
          · rw [if_pos h3] at h
            obtain ⟨e, hmem, hprop⟩ := (ih seen).mp h
            exact ⟨e, List.mem_cons_of_mem p hmem, hprop⟩
          · rw [if_neg h3] at h
            cases hrec : cleanParticipantList (pyLower (pyStrip p.email) :: seen) rest with
            | error e2 =>
              cases e2
              obtain ⟨e, hmem, hprop⟩ := (ih _).mp hrec
              exact ⟨e, List.mem_cons_of_mem p hmem, hprop⟩
            | ok nrest => rw [hrec] at h; cases h
    · rintro ⟨e, hmem, he, hn⟩
      exact cleanParticipantList_error_of_mem (p :: rest) e he hn seen hmem

/-- Helper: an entry with both normalized email and trimmed name empty is
skipped: processing continues exactly as if the entry were not there, for
every seen set and every surrounding context. -/
lemma cleanParticipantList_skip (e : PEntry)
    (he : pyLower (pyStrip e.email) = "") (hn : pyStrip e.name = "") :
    ∀ (xs : List PEntry) (seen : List String) (ys : List PEntry),
      cleanParticipantList seen (xs ++ e :: ys) = cleanParticipantList seen (xs ++ ys) := by
  intro xs
  induction xs with
  | nil =>
    intro seen ys
    show cleanParticipantList seen (e :: ys) = cleanParticipantList seen ys
    conv_lhs => rw [cleanParticipantList.eq_def]
    dsimp only
    rw [if_pos ⟨he, hn⟩]
  | cons p xs ih =>
    intro seen ys
    show cleanParticipantList seen (p :: (xs ++ e :: ys)) =
      cleanParticipantList seen (p :: (xs ++ ys))
    unfold cleanParticipantList
    by_cases h1 : pyLower (pyStrip p.email) = "" ∧ pyStrip p.name = ""
    · rw [if_pos h1, if_pos h1]; exact ih seen ys
    · rw [if_neg h1, if_neg h1]
      by_cases h2 : pyLower (pyStrip p.email) = ""
      · rw [if_pos h2, if_pos h2]
      · rw [if_neg h2, if_neg h2]
        by_cases h3 : pyLower (pyStrip p.email) ∈ seen
        · rw [if_pos h3, if_pos h3]; exact ih seen ys
        · rw [if_neg h3, if_neg h3, ih _ ys]

/-- C8 counterexample: a submitted entry with empty email AND empty name is
silently skipped by `clean_participants_data` — the request does not fail
with EmailRequired, contradicting "every entry missing an email causes the
poll-creation request to fail". -/
theorem both_empty_entry_not_rejected :
    cleanParticipantsData [⟨"", ""⟩] = Except.ok [] ∧
    cleanParticipantsData [⟨"", ""⟩] ≠ Except.error PErr.EmailRequired := by
  refine ⟨rfl, fun h => ?_⟩
  rw [show cleanParticipantsData [⟨"", ""⟩] = Except.ok [] from rfl] at h
  cases h

/-- C8 amended: every entry whose email is empty after trimming and
lower-casing but whose trimmed name is non-empty makes the participant-list
validation fail with EmailRequired (entries with both fields empty are
silently dropped instead, see `both_empty_entry_not_rejected`). -/
theorem missing_email_fails_email_required (l : List PEntry) (e : PEntry)
    (hmem : e ∈ l) (he : pyLower (pyStrip e.email) = "") (hn : pyStrip e.name ≠ "") :
    cleanParticipantsData l = Except.error PErr.EmailRequired :=
  cleanParticipantList_error_of_mem l e he hn [] hmem

/-- Witness for `missing_email_fails_email_required`: a valid entry followed
by one with a name but no email. -/
theorem missing_email_fails_witness :
    cleanParticipantsData [⟨"a@b.c", "X"⟩, ⟨"", "Maria"⟩] =
      Except.error PErr.EmailRequired :=
  missing_email_fails_email_required [⟨"a@b.c", "X"⟩, ⟨"", "Maria"⟩] ⟨"", "Maria"⟩
    (by simp) rfl (by decide)

/-- C10: an entry with both email and name empty after trimming is silently
dropped — no error, and the processing of every other entry is exactly as if
the entry were absent; and the validation fails (with EmailRequired) iff
some entry combines an empty email with a non-empty name — that is the only
entry shape that is rejected. -/
theorem both_empty_dropped_and_only_named_fail :
    (∀ (xs ys : List PEntry) (e : PEntry),
        pyLower (pyStrip e.email) = "" → pyStrip e.name = "" →
        cleanParticipantsData (xs ++ e :: ys) = cleanParticipantsData (xs ++ ys)) ∧
    (∀ l : List PEntry,
        cleanParticipantsData l = Except.error PErr.EmailRequired ↔
        ∃ e2 ∈ l, pyLower (pyStrip e2.email) = "" ∧ pyStrip e2.name ≠ "") := by
  constructor
  · intro xs ys e he hn
    unfold cleanParticipantsData
    exact cleanParticipantList_skip e he hn xs [] ys
  · intro l
    exact cleanParticipantList_error_iff l []

/-- Witness for `both_empty_dropped_and_only_named_fail`: dropping the empty
entry between two real ones changes nothing, and a list whose entries all
have emails never raises. -/
theorem both_empty_dropped_witness :
    cleanParticipantsData [⟨"a@b.c", "X"⟩, ⟨"", ""⟩, ⟨"d@e.f", "Y"⟩] =
      cleanParticipantsData [⟨"a@b.c", "X"⟩, ⟨"d@e.f", "Y"⟩] ∧
    ¬(cleanParticipantsData [⟨"a@b.c", "X"⟩, ⟨"", ""⟩, ⟨"d@e.f", "Y"⟩] =
        Except.error PErr.EmailRequired) := by
  constructor
  · exact both_empty_dropped_and_only_named_fail.1 [⟨"a@b.c", "X"⟩] [⟨"d@e.f", "Y"⟩]
      ⟨"", ""⟩ rfl rfl
  · intro h
    obtain ⟨e2, hmem, he2, hn2⟩ :=
      (both_empty_dropped_and_only_named_fail.2 [⟨"a@b.c", "X"⟩, ⟨"", ""⟩, ⟨"d@e.f", "Y"⟩]).mp h
    simp only [List.mem_cons, List.not_mem_nil, or_false] at hmem
    rcases hmem with rfl | rfl | rfl
    · exact absurd he2 (by decide)
    · exact absurd rfl hn2
    · exact absurd he2 (by decide)

/-- C9 counterexample: through `endPoll` (which never checks `time_start`,
see `end_waiting_poll_succeeds`) a never-started poll can gain a `time_end`;
its derived status is WAITING — not FINISHED — yet `calculate_poll_results`,
which only inspects `time_end`, returns a result instead of Unavailable. -/
theorem results_available_on_ended_waiting_poll :
    endPoll ⟨none, none⟩ 1 = Except.ok ⟨none, some 1⟩ ∧
    Poll.status ⟨none, some 1⟩ = Status.WAITING ∧
    calculatePollResults ⟨none, some 1⟩ [] [] = some [] ∧
    (some [] : Option (List (Nat × List (Nat × Nat)))) ≠ none := by
  exact ⟨rfl, rfl, rfl, by simp⟩

/-- C9 amended: `calculate_poll_results` returns Unavailable (`none`) iff
`time_end` is unset; for every poll satisfying the data-model invariant
"time_end set implies time_start set" that is the same as "derived status is
not FINISHED"; and when available the result lists, for each question and
each of its choices, exactly the number of vote rows referencing that
choice. -/
theorem results_unavailable_iff (p : Poll) (qs : List QuestionRow) (votes : List VoteRow) :
    (calculatePollResults p qs votes = none ↔ p.time_end = none) ∧
    (p.time_start ≠ none →
      (calculatePollResults p qs votes = none ↔ p.status ≠ Status.FINISHED)) ∧
    (p.time_end ≠ none →
      calculatePollResults p qs votes =
        some (qs.map (fun q => (q.id, q.choices.map (fun c => (c, voteCount votes c)))))) := by
  rcases p with ⟨ts, te⟩
  cases ts <;> cases te <;> simp [calculatePollResults, Poll.status]

/-- Witness for `results_unavailable_iff`: a finished poll whose choices
carry 2 and 1 votes yields exactly those counts; a pending poll yields
Unavailable. -/
theorem results_unavailable_iff_witness :
    calculatePollResults ⟨some 0, some 9⟩ [⟨1, "question", 1, 1, [10, 11]⟩]
        [⟨1, 10⟩, ⟨2, 10⟩, ⟨3, 11⟩] = some [(1, [(10, 2), (11, 1)])] ∧
    calculatePollResults ⟨some 0, none⟩ [⟨1, "question", 1, 1, [10, 11]⟩] [] = none := by
  constructor
  · exact Eq.trans ((results_unavailable_iff ⟨some 0, some 9⟩
      [⟨1, "question", 1, 1, [10, 11]⟩] [⟨1, 10⟩, ⟨2, 10⟩, ⟨3, 11⟩]).2.2 (by simp)) rfl
  · exact ((results_unavailable_iff ⟨some 0, none⟩ [⟨1, "question", 1, 1, [10, 11]⟩]
      []).2.1 (by simp)).mpr (by simp [Poll.status])

end Votes
